import Mathlib

/-!
# Verification of the optimistic-update / real-time-reconciliation logic
of the `schomdya-basic-bolt` social/media front end.

The source is a React + Supabase application. The logic under
verification lives in `src/src/components/ProfileCard.tsx`:

* `ProfileCard.toggleLike` (lines 114–131) and `ProfileCard.toggleFollow`
  (lines 133–150): optimistic toggle of a Like/Follow edge with a
  pre-toggle snapshot and a rollback in the `catch` branch;
* `ProfileCard.fetchCounts` (lines 27–37): feed-triggered re-fetch that
  overwrites the local counts with the store's authoritative counts
  (`res.count || 0`);
* `ProfileCard.addComment` (lines 152–187): optimistic prepend of a
  placeholder comment, in-place reconciliation by temporary id on
  success, filter-out plus count reset on failure;
* `useMediaLike.toggleLike` (lines 390–413) and
  `useCreatorFollow.toggleFollow` (lines 465–497): the media-domain
  variants, guarded by `if (!user) return;` and logging a console error
  in their `catch` branches;
* the `useEffect` subscription blocks (lines 59–112, 415–437, 499–521),
  whose cleanup calls `channel.unsubscribe()`.

Counts are JavaScript numbers manipulated by `+ 1` / `- 1` with no
clamping, so they are embedded as `Int`.  A remote call that fails is
embedded as an `Except.error`: the `try`/`catch` around each awaited
Supabase call rolls back exactly when the awaited promise rejects.
-/

/-- Error taxonomy of the Adapter interface (spec §7); the code treats
every caught error uniformly, so the constructor never matters. -/
inductive AdapterError where
  | storeUnavailable
  | duplicateEdge
  | notFound
  | validationError
deriving Repr, DecidableEq

/-- A remote mutation issued by a toggle: `insert` a Like/Follow row or
`delete` it (`ProfileCard.tsx` lines 122–126). -/
inductive AdapterReq where
  | insert
  | remove
deriving Repr, DecidableEq

/-- Local state of one toggleable relation as held by the component:
`isLiked`/`isFollowing` (`useState(false)`) and the count
(`useState(0)`), `ProfileCard.tsx` lines 18–22. -/
structure ToggleState where
  isActive : Bool
  totalCount : Int
deriving Repr, DecidableEq

namespace ToggleState

/-- The optimistic transition of `toggleLike` (lines 118–119):
`setIsLiked(!isLiked); setLikesCount(isLiked ? likesCount - 1 : likesCount + 1)`. -/
def toggleOptimistic (s : ToggleState) : ToggleState :=
  { isActive := !s.isActive
    totalCount := if s.isActive then s.totalCount - 1 else s.totalCount + 1 }

/-- Which remote call a toggle issues (lines 122–126): `delete` when
`previousLiked`, else `insert`. -/
def toggleRequest (s : ToggleState) : AdapterReq :=
  if s.isActive then AdapterReq.remove else AdapterReq.insert

/-- The continuation after the awaited remote call (lines 121–130):
on success nothing further happens; on a rejected promise the `catch`
branch restores the snapshot captured in lines 115–116
(`setIsLiked(previousLiked); setLikesCount(previousCount)`). -/
def toggleResolve (snap : ToggleState) (res : Except AdapterError Unit)
    (s : ToggleState) : ToggleState :=
  match res with
  | Except.ok _ => s
  | Except.error _ => { isActive := snap.isActive, totalCount := snap.totalCount }

end ToggleState

open ToggleState

/-- One complete awaited invocation of `ProfileCard.toggleLike`
(lines 114–131), with the outcome of the remote call as a parameter:
snapshot, optimistic update, remote call, resolve. -/
def toggleLike (s : ToggleState) (res : Except AdapterError Unit) : ToggleState :=
  toggleResolve s res (toggleOptimistic s)

/-- One complete awaited invocation of `ProfileCard.toggleFollow`
(lines 133–150); its body is the same protocol as `toggleLike` on the
`follows` table (snapshot in lines 134–135, optimistic update in
lines 137–138, rollback in lines 147–148). -/
def toggleFollow (s : ToggleState) (res : Except AdapterError Unit) : ToggleState :=
  match res with
  | Except.ok _ =>
      { isActive := !s.isActive
        totalCount := if s.isActive then s.totalCount - 1 else s.totalCount + 1 }
  | Except.error _ => { isActive := s.isActive, totalCount := s.totalCount }

/-!
## Concurrent toggle invocations

JavaScript's event loop runs each click handler synchronously up to its
first `await`.  `toggleLike` has no guard whatsoever before its remote
call (lines 114–126), and `useMediaLike.toggleLike` sets a `loading`
flag (line 398) but never tests it.  So when a second toggle is fired
before the first resolves, the scheduler runs: invocation 1's snapshot,
optimistic update and remote call, then invocation 2's snapshot,
optimistic update and remote call — two requests in flight.
-/

/-- The synchronous prefix of one `toggleLike` invocation (lines
114–126): capture the snapshot, apply the optimistic update, and issue
the remote call.  Returns the new local state, the request issued, and
the captured snapshot. -/
def toggleLikePrefix (s : ToggleState) : ToggleState × AdapterReq × ToggleState :=
  (toggleOptimistic s, toggleRequest s, s)

/-- Two `toggleLike` invocations where the second fires before the
first's remote call resolves: both synchronous prefixes run back to
back, each issuing its own request.  Returns the local state after both
prefixes and the list of requests issued. -/
def interleavedTogglePrefixes (s : ToggleState) : ToggleState × List AdapterReq :=
  let p1 := toggleLikePrefix s
  let p2 := toggleLikePrefix p1.1
  (p2.1, [p1.2.1, p2.2.1])

/-!
## Feed-triggered reconciliation

`fetchCounts` (lines 27–37) queries the exact row counts of the three
tables and overwrites the three local counts with `res.count || 0`.
The Change-Feed handlers (lines 67–106) call it on every notification.
-/

/-- Counts state of a mounted `ProfileCard` (lines 18–20). -/
structure CountsState where
  likesCount : Int
  followsCount : Int
  commentsCount : Int
deriving Repr, DecidableEq

/-- JavaScript `count || 0` on a `number | null` count: `null` and `0`
are falsy and give `0`, any other number passes through. -/
def orZero (c : Option Int) : Int :=
  match c with
  | none => 0
  | some n => if n = 0 then 0 else n

/-- `ProfileCard.fetchCounts` (lines 27–37): the three exact counts
returned by the store overwrite the three local counts unconditionally
(`setLikesCount(likesRes.count || 0)` and so on). -/
def fetchCounts (likesRes followsRes commentsRes : Option Int)
    (_s : CountsState) : CountsState :=
  { likesCount := orZero likesRes
    followsCount := orZero followsRes
    commentsCount := orZero commentsRes }

/-- Own-write-plus-feed scenario (lines 67–80 and 114–131): starting
from a local state `(false, N)` that agrees with the store, the user
toggles on; the insert commits, making the store count `N + 1`; the
Change Feed fires for that own write before the toggle's promise
resolves, so the handler re-fetches and overwrites the count with
`N + 1` and the membership with `true`; finally the toggle's own
promise resolves successfully, which changes nothing. -/
def ownWriteFeedScenario (N : Nat) : ToggleState :=
  let s0 : ToggleState := ⟨false, (N : Int)⟩
  let p := toggleLikePrefix s0
  let dbCountAfterInsert : Nat := N + 1
  let afterFeed : ToggleState :=
    { isActive := true, totalCount := orZero (some (dbCountAfterInsert : Int)) }
  toggleResolve p.2.2 (Except.ok ()) afterFeed

/-!
## Comment append

`addComment` (lines 152–187): guard on empty trimmed input, optimistic
prepend of a placeholder with a temporary id, then either an in-place
reconciliation by temporary id (`prev.map`, lines 177–181) or a
filter-out rollback with the count reset to the closure's pre-append
value (lines 183–186).
-/

/-- A comment row as the component holds it (interface `Comment`,
lines 10–15). -/
structure Comment where
  id : String
  content : String
  user_id : String
  created_at : Option String
deriving Repr, DecidableEq

/-- The authoritative fields the store returns from
`insert(...).select().single()` (lines 170–174, used in line 179). -/
structure ServerComment where
  id : String
  created_at : String
deriving Repr, DecidableEq

/-- JavaScript `String.prototype.trim`: strip leading and trailing
whitespace (`newComment.trim()`, lines 153 and 155). -/
def jsTrim (s : String) : String :=
  String.mk ((s.data.dropWhile Char.isWhitespace).reverse.dropWhile Char.isWhitespace).reverse

/-- The optimistic placeholder built in lines 158–163: temporary id,
trimmed text, current user, local clock. -/
def optimisticComment (tempId text userId localTime : String) : Comment :=
  { id := tempId, content := text, user_id := userId, created_at := some localTime }

/-- The success reconciliation of lines 176–182: map over the list,
replacing the id and `created_at` of the comment whose id is the
temporary id, in place. -/
def addCommentReconcile (tempId : String) (data : ServerComment)
    (comments : List Comment) : List Comment :=
  comments.map fun c =>
    if c.id = tempId then { c with id := data.id, created_at := some data.created_at } else c

/-- The failure rollback of line 184: filter the placeholder out. -/
def addCommentRemovePlaceholder (tempId : String) (comments : List Comment) : List Comment :=
  comments.filter fun c => c.id ≠ tempId

/-- One complete awaited invocation of `ProfileCard.addComment`
(lines 152–187), with the remote outcome as a parameter: guard on empty
trimmed input (line 153), optimistic prepend and increment (lines
165–167), then reconciliation on a returned row (`if (data)`), nothing
on a null row, or rollback on a rejected promise with the count reset
to the closure's pre-append value (`setCommentsCount(commentsCount)`,
line 185). -/
def addComment (newComment userId tempId localTime : String)
    (result : Except AdapterError (Option ServerComment))
    (comments : List Comment) (commentsCount : Int) : List Comment × Int :=
  if (jsTrim newComment).isEmpty then (comments, commentsCount)
  else
    let commentText := jsTrim newComment
    let optimistic := optimisticComment tempId commentText userId localTime
    let cs1 := optimistic :: comments
    let cnt1 := commentsCount + 1
    match result with
    | Except.ok (some data) => (addCommentReconcile tempId data cs1, cnt1)
    | Except.ok none => (cs1, cnt1)
    | Except.error _ => (addCommentRemovePlaceholder tempId cs1, commentsCount)

/-!
## Reachable states of the likes controller

The events a mounted `ProfileCard` likes-controller can undergo, each
an atomic segment of JavaScript between two suspension points:

* the synchronous prefix of a `toggleLike` invocation (lines 114–126):
  snapshot captured, optimistic update applied, remote call issued —
  the snapshot stays alive in the invocation's closure until its
  promise settles, and because there is no pending guard several
  snapshots can be alive at once;
* a pending toggle's promise fulfilling (nothing happens, lines
  121–126) or rejecting (the `catch` restores that invocation's
  snapshot, lines 127–130);
* `setLikesCount(likesRes.count || 0)` landing from `fetchCounts`
  (line 34), the count being the store's row count, a natural number;
* `setIsLiked(!!likeRes.data)` landing from `fetchUserStatus`
  (line 45) — a separate await, so it can land without its matching
  count (`fetchCounts`, `fetchUserStatus` and `fetchComments` are
  three independent promises both at mount, lines 60–62, and in the
  feed handler, lines 76–79).
-/

/-- A likes-controller configuration: the visible `ToggleState` plus
the snapshots captured by toggle invocations whose promise has not yet
settled. -/
structure CtrlState where
  st : ToggleState
  inflight : List ToggleState
deriving Repr, DecidableEq

/-- The initial configuration: `useState(false)`, `useState(0)`
(lines 18 and 21), nothing in flight. -/
def ctrlInit : CtrlState := ⟨⟨false, 0⟩, []⟩

/-- One event of the likes controller, as traced from
`ProfileCard.tsx` (see the section comment above). -/
inductive CtrlStep : CtrlState → CtrlState → Prop where
  | toggleStart (c : CtrlState) :
      CtrlStep c ⟨toggleOptimistic c.st, c.st :: c.inflight⟩
  | resolveOk (c : CtrlState) (l₁ l₂ : List ToggleState) (snap : ToggleState)
      (h : c.inflight = l₁ ++ snap :: l₂) :
      CtrlStep c ⟨c.st, l₁ ++ l₂⟩
  | resolveFail (c : CtrlState) (l₁ l₂ : List ToggleState) (snap : ToggleState)
      (h : c.inflight = l₁ ++ snap :: l₂) :
      CtrlStep c ⟨snap, l₁ ++ l₂⟩
  | fetchCountsUpd (c : CtrlState) (n : Nat) :
      CtrlStep c ⟨⟨c.st.isActive, (n : Int)⟩, c.inflight⟩
  | fetchStatusUpd (c : CtrlState) (b : Bool) :
      CtrlStep c ⟨⟨b, c.st.totalCount⟩, c.inflight⟩

/-- Configurations reachable from the initial one. -/
def CtrlReachable (c : CtrlState) : Prop :=
  Relation.ReflTransGen CtrlStep ctrlInit c

/-!
The decrement of a toggle-off is only ever applied with
`isActive = true`, so the invariant `isActive → totalCount ≥ 1` (which
the authoritative store guarantees for any consistent membership/count
pair: the user's own edge is among the counted rows) is preserved by
toggles, by resolutions, and by any reconciliation that delivers
membership and count as one consistent snapshot.  Only a membership
update landing without its matching count — the two are separate
awaited promises in the source — can break it.
-/

/-- The controller events with reconciliation delivering membership
and count as one consistent snapshot (`b → n ≥ 1`), instead of the
source's two independent `setIsLiked`/`setLikesCount` landings. -/
inductive CtrlStepAtomic : CtrlState → CtrlState → Prop where
  | toggleStart (c : CtrlState) :
      CtrlStepAtomic c ⟨toggleOptimistic c.st, c.st :: c.inflight⟩
  | resolveOk (c : CtrlState) (l₁ l₂ : List ToggleState) (snap : ToggleState)
      (h : c.inflight = l₁ ++ snap :: l₂) :
      CtrlStepAtomic c ⟨c.st, l₁ ++ l₂⟩
  | resolveFail (c : CtrlState) (l₁ l₂ : List ToggleState) (snap : ToggleState)
      (h : c.inflight = l₁ ++ snap :: l₂) :
      CtrlStepAtomic c ⟨snap, l₁ ++ l₂⟩
  | fetchSnapshot (c : CtrlState) (b : Bool) (n : Nat)
      (h : b = true → 1 ≤ n) :
      CtrlStepAtomic c ⟨⟨b, (n : Int)⟩, c.inflight⟩

/-- Configurations reachable under consistent-snapshot
reconciliation. -/
def CtrlReachableAtomic (c : CtrlState) : Prop :=
  Relation.ReflTransGen CtrlStepAtomic ctrlInit c

/-- The inductive invariant: the visible state and every in-flight
snapshot have a non-negative count, at least `1` when active. -/
def CtrlInv (c : CtrlState) : Prop :=
  (0 ≤ c.st.totalCount ∧ (c.st.isActive = true → 1 ≤ c.st.totalCount)) ∧
    ∀ s ∈ c.inflight, 0 ≤ s.totalCount ∧ (s.isActive = true → 1 ≤ s.totalCount)

/-!
## Unmount and cancellation, signed-out guard

The `useEffect` cleanups (lines 109–111, 434–436, 518–520) call
`channel.unsubscribe()`.  A toggle promise that settles after unmount
runs its continuation; the `setX` state setters of an unmounted
component are no-ops in the host framework (React 18 discards state
updates to unmounted components without warning), which is exactly the
defensive behaviour spec §5 requires.  The continuations differ in
logging: `ProfileCard.toggleLike`'s `catch` (lines 127–130) only calls
setters, while `useMediaLike.toggleLike`'s `catch` (lines 406–410)
also calls `console.error('Error toggling like:', error)` — and
`useCreatorFollow.toggleFollow`'s (lines 490–494)
`console.error('Error toggling follow:', error)` — unconditionally,
mounted or not.
-/

/-- Mount/subscription status of one display component instance. -/
structure Lifecycle where
  mounted : Bool
  subscribed : Bool
deriving Repr, DecidableEq

/-- Unmounting runs the effect cleanup (lines 109–111):
`channel.unsubscribe()`; the component is gone and the subscription
cancelled. -/
def unmount (_lc : Lifecycle) : Lifecycle :=
  { mounted := false, subscribed := false }

/-- A React state setter applied to an unmounted component is a
no-op. -/
def setStateIfMounted (mounted : Bool) (f : ToggleState → ToggleState)
    (s : ToggleState) : ToggleState :=
  if mounted then f s else s

/-- The continuation of `ProfileCard.toggleLike` once its awaited call
settles (lines 121–130), with the component's mount status at that
moment: on fulfilment nothing runs; on rejection the `catch` calls the
two setters with the snapshot.  The second component of the result is
the list of console-error messages emitted (none in this
continuation). -/
def toggleLikeContinuation (mounted : Bool) (snap : ToggleState)
    (res : Except AdapterError Unit) (s : ToggleState) : ToggleState × List String :=
  match res with
  | Except.ok _ => (s, [])
  | Except.error _ =>
      (setStateIfMounted mounted (fun _ => ⟨snap.isActive, snap.totalCount⟩) s, [])

/-- Local state of `useMediaLike` (lines 374–376): `isLiked`,
`likesCount`, `loading`. -/
structure MediaLikeState where
  isLiked : Bool
  likesCount : Int
  loading : Bool
deriving Repr, DecidableEq

/-- The continuation of `useMediaLike.toggleLike` once its awaited
call settles (lines 400–412), with the component's mount status at
that moment: on fulfilment only `finally` runs (`setLoading(false)`);
on rejection the `catch` calls the two setters with the snapshot,
logs a console error, and `finally` runs.  Setters are no-ops when
unmounted; `console.error` runs regardless. -/
def mediaToggleLikeContinuation (mounted : Bool) (prevLiked : Bool) (prevCount : Int)
    (res : Except AdapterError Unit) (s : MediaLikeState) : MediaLikeState × List String :=
  match res with
  | Except.ok _ => ((if mounted then { s with loading := false } else s), [])
  | Except.error _ =>
      ((if mounted then
          { isLiked := prevLiked, likesCount := prevCount, loading := false }
        else s),
        ["Error toggling like:"])

/-- One complete awaited invocation of `useMediaLike.toggleLike`
(lines 390–413) with a mounted component: the `if (!user) return;`
guard (line 391), then snapshot, optimistic update plus
`setLoading(true)`, remote call, and the `catch`/`finally`
continuation.  Returns the new state, the remote requests issued and
the console-error messages emitted. -/
def mediaToggleLike (user : Option String) (res : Except AdapterError Unit)
    (s : MediaLikeState) : MediaLikeState × List AdapterReq × List String :=
  match user with
  | none => (s, [], [])
  | some _ =>
      let previousLiked := s.isLiked
      let previousCount := s.likesCount
      let s1 : MediaLikeState :=
        { isLiked := !s.isLiked
          likesCount := if s.isLiked then s.likesCount - 1 else s.likesCount + 1
          loading := true }
      let req := if previousLiked then AdapterReq.remove else AdapterReq.insert
      match res with
      | Except.ok _ => ({ s1 with loading := false }, [req], [])
      | Except.error _ =>
          ({ isLiked := previousLiked, likesCount := previousCount, loading := false },
            [req], ["Error toggling like:"])

/-- Local state of `useCreatorFollow` (lines 444–446). -/
structure CreatorFollowState where
  isFollowing : Bool
  followsCount : Int
  loading : Bool
deriving Repr, DecidableEq

/-- One complete awaited invocation of `useCreatorFollow.toggleFollow`
(lines 465–497) with a mounted component: the `if (!user) return;`
guard (line 466), then snapshot, optimistic update plus
`setLoading(true)`, remote call, and the `catch`/`finally`
continuation. -/
def creatorToggleFollow (user : Option String) (res : Except AdapterError Unit)
    (s : CreatorFollowState) : CreatorFollowState × List AdapterReq × List String :=
  match user with
  | none => (s, [], [])
  | some _ =>
      let previousFollowing := s.isFollowing
      let previousCount := s.followsCount
      let s1 : CreatorFollowState :=
        { isFollowing := !s.isFollowing
          followsCount := if s.isFollowing then s.followsCount - 1 else s.followsCount + 1
          loading := true }
      let req := if previousFollowing then AdapterReq.remove else AdapterReq.insert
      match res with
      | Except.ok _ => ({ s1 with loading := false }, [req], [])
      | Except.error _ =>
          ({ isFollowing := previousFollowing, followsCount := previousCount, loading := false },
            [req], ["Error toggling follow:"])

/-!
## Theorems
-/

/-- C1: rolling back an optimistic toggle-on whose remote insert fails
restores exactly the pre-toggle snapshot `(false, N)`. -/
theorem toggleLike_rollback_on_failure (N : Int) (e : AdapterError) :
    toggleLike ⟨false, N⟩ (Except.error e) = ⟨false, N⟩ ∧
    toggleLike ⟨false, N⟩ (Except.error e) ≠ ⟨false, N + 1⟩ ∧
    toggleLike ⟨false, N⟩ (Except.error e) ≠ ⟨true, N + 1⟩ := by
  refine ⟨rfl, ?_, ?_⟩ <;> simp [toggleLike, toggleResolve, toggleOptimistic]

/-- C2: from `(false, N)` a successful toggle-on followed by a
successful toggle-off returns to `(false, N)`, for the Like relation
and for the Follow relation alike. -/
theorem toggle_on_off_roundtrip (N : Int) :
    toggleLike (toggleLike ⟨false, N⟩ (Except.ok ())) (Except.ok ()) = ⟨false, N⟩ ∧
    toggleFollow (toggleFollow ⟨false, N⟩ (Except.ok ())) (Except.ok ()) = ⟨false, N⟩ := by
  constructor <;> simp [toggleLike, toggleFollow, toggleResolve, toggleOptimistic]

/-- C3 counterexample: from `(false, 0)`, two toggle invocations fired
before the first resolves issue two remote Adapter calls (an insert and
then a delete), not one — and the second invocation is not ignored: it
moves the local state further. -/
theorem interleaved_toggles_issue_two_calls :
    (interleavedTogglePrefixes ⟨false, 0⟩).2 = [AdapterReq.insert, AdapterReq.remove] ∧
    (interleavedTogglePrefixes ⟨false, 0⟩).2.length ≠ 1 ∧
    (interleavedTogglePrefixes ⟨false, 0⟩).1 ≠ (toggleLikePrefix ⟨false, 0⟩).1 := by
  refine ⟨rfl, by decide, by decide⟩

/-- C3 amended: the code has no de-duplication — from any state, two
toggle invocations fired before the first resolves issue exactly two
remote Adapter calls. -/
theorem interleaved_toggles_not_deduplicated (s : ToggleState) :
    (interleavedTogglePrefixes s).2.length = 2 := by
  rfl

/-- `count || 0` is the identity on an actually-returned count. -/
theorem orZero_some (n : Int) : orZero (some n) = n := by
  by_cases h : n = 0 <;> simp [orZero, h]

/-- C4: whatever the prior local counts were, a feed-triggered
`fetchCounts` that receives counts `(n, m, k)` from the Adapter leaves
the local counts exactly `(n, m, k)`. -/
theorem fetchCounts_overwrites (s : CountsState) (n m k : Int) :
    fetchCounts (some n) (some m) (some k) s = ⟨n, m, k⟩ := by
  simp [fetchCounts, orZero_some]

/-- C5: the Controller's own write is never double-counted: when the
feed notification for the toggle's own insert is handled before the
toggle's promise resolves, the final count is `N + 1`, not `N + 2`. -/
theorem no_double_count_own_write (N : Nat) :
    (ownWriteFeedScenario N).totalCount = (N : Int) + 1 ∧
    (ownWriteFeedScenario N).totalCount ≠ (N : Int) + 2 := by
  have h : (ownWriteFeedScenario N).totalCount = (N : Int) + 1 := by
    simp [ownWriteFeedScenario, toggleLikePrefix, toggleResolve, orZero_some]
  refine ⟨h, ?_⟩
  rw [h]
  omega

/-- Unfolding `addCommentReconcile` one element at a time. -/
theorem addCommentReconcile_cons (tempId : String) (data : ServerComment)
    (c : Comment) (cs : List Comment) :
    addCommentReconcile tempId data (c :: cs) =
      (if c.id = tempId
        then { c with id := data.id, created_at := some data.created_at }
        else c) :: addCommentReconcile tempId data cs := rfl

/-- Reconciliation by an id that occurs nowhere in the list changes
nothing. -/
theorem addCommentReconcile_not_mem (tempId : String) (data : ServerComment)
    (comments : List Comment) (h : ∀ c ∈ comments, c.id ≠ tempId) :
    addCommentReconcile tempId data comments = comments := by
  induction comments with
  | nil => rfl
  | cons c cs ih =>
      have hc : c.id ≠ tempId := h c (List.mem_cons_self c cs)
      have hcs : ∀ x ∈ cs, x.id ≠ tempId := fun x hx => h x (List.mem_cons_of_mem c hx)
      rw [addCommentReconcile_cons, if_neg hc, ih hcs]

/-- Filtering out an id that occurs nowhere in the list changes
nothing. -/
theorem addCommentRemovePlaceholder_not_mem (tempId : String)
    (comments : List Comment) (h : ∀ c ∈ comments, c.id ≠ tempId) :
    addCommentRemovePlaceholder tempId comments = comments := by
  induction comments with
  | nil => rfl
  | cons c cs ih =>
      have hc : c.id ≠ tempId := h c (List.mem_cons_self c cs)
      have hcs : ∀ x ∈ cs, x.id ≠ tempId := fun x hx => h x (List.mem_cons_of_mem c hx)
      have ih2 := ih hcs
      simp only [addCommentRemovePlaceholder] at ih2 ⊢
      rw [List.filter_cons, if_pos (by simpa using hc), ih2]

/-- C6: two comments appended in quick succession — both optimistic
prepends run, then each success reconciliation lands by temporary id.
Provided the two temporary ids are distinct, absent from the older
list, and the first server id does not collide with the second
temporary id, the final list is exactly the two server-reconciled
comments, newest first, followed by the older comments untouched:
insertion order, independent of the server-assigned timestamps. -/
theorem comment_reconciliation_preserves_order
    (older : List Comment) (ta tb userId la lb ia ib : String)
    (sa sb : ServerComment)
    (hab : ia ≠ ib) (hsa : sa.id ≠ ib)
    (ha : ∀ c ∈ older, c.id ≠ ia) (hb : ∀ c ∈ older, c.id ≠ ib) :
    addCommentReconcile ib sb
        (addCommentReconcile ia sa
          (optimisticComment ib tb userId lb ::
            optimisticComment ia ta userId la :: older)) =
      { id := sb.id, content := tb, user_id := userId, created_at := some sb.created_at } ::
      { id := sa.id, content := ta, user_id := userId, created_at := some sa.created_at } ::
        older := by
  have h1 : addCommentReconcile ia sa
      (optimisticComment ib tb userId lb ::
        optimisticComment ia ta userId la :: older) =
      optimisticComment ib tb userId lb ::
        { id := sa.id, content := ta, user_id := userId, created_at := some sa.created_at } ::
          older := by
    rw [addCommentReconcile_cons, addCommentReconcile_cons,
        addCommentReconcile_not_mem ia sa older ha]
    simp [optimisticComment, Ne.symm hab]
  rw [h1, addCommentReconcile_cons, addCommentReconcile_cons,
      addCommentReconcile_not_mem ib sb older hb]
  simp [optimisticComment, hsa]

/-- C6 witness. -/
theorem comment_reconciliation_preserves_order_witness :
    addCommentReconcile "temp-2" ⟨"s2", "t2"⟩
        (addCommentReconcile "temp-1" ⟨"s1", "t1"⟩
          (optimisticComment "temp-2" "b" "u" "lb" ::
            optimisticComment "temp-1" "a" "u" "la" ::
            [{ id := "old", content := "c", user_id := "v", created_at := some "t0" }])) =
      [{ id := "s2", content := "b", user_id := "u", created_at := some "t2" },
       { id := "s1", content := "a", user_id := "u", created_at := some "t1" },
       { id := "old", content := "c", user_id := "v", created_at := some "t0" }] :=
  comment_reconciliation_preserves_order
    [{ id := "old", content := "c", user_id := "v", created_at := some "t0" }]
    "a" "b" "u" "la" "lb" "temp-1" "temp-2" ⟨"s1", "t1"⟩ ⟨"s2", "t2"⟩
    (by decide) (by decide) (by decide) (by decide)

/-- C7: an append whose remote write fails removes the placeholder and
ends with the pre-append count, provided the input is non-empty after
trimming and the temporary id does not occur among the older comments;
the failure is absorbed by the `catch` branch — `addComment` is a total
function into plain state, never a propagated error. -/
theorem addComment_failure_rolls_back
    (newComment userId tempId localTime : String) (e : AdapterError)
    (comments : List Comment) (commentsCount : Int)
    (hne : (jsTrim newComment).isEmpty = false)
    (hid : ∀ c ∈ comments, c.id ≠ tempId) :
    addComment newComment userId tempId localTime (Except.error e) comments commentsCount =
      (comments, commentsCount) := by
  have hdrop : addCommentRemovePlaceholder tempId
      (optimisticComment tempId (jsTrim newComment) userId localTime :: comments) =
      comments := by
    have hrest := addCommentRemovePlaceholder_not_mem tempId comments hid
    simp only [addCommentRemovePlaceholder] at hrest ⊢
    rw [List.filter_cons, if_neg (by simp [optimisticComment]), hrest]
  simp only [addComment, hne, Bool.false_eq_true, if_false, hdrop]

/-- C7 witness. -/
theorem addComment_failure_rolls_back_witness :
    addComment "hi" "u" "temp-1" "t" (Except.error AdapterError.storeUnavailable)
        [{ id := "old", content := "c", user_id := "v", created_at := some "t0" }] 5 =
      ([{ id := "old", content := "c", user_id := "v", created_at := some "t0" }], 5) :=
  addComment_failure_rolls_back "hi" "u" "temp-1" "t" AdapterError.storeUnavailable
    [{ id := "old", content := "c", user_id := "v", created_at := some "t0" }] 5
    (by decide) (by decide)

/-- C8 counterexample: the configuration with `totalCount = -1` is
reachable, so `totalCount ≥ 0` does not hold in every reachable state.
Trace: at mount the membership fetch resolves first (the user had
liked this profile in an earlier session), setting `isLiked = true`
while the count is still its initial `0`; the user then toggles, and
the optimistic decrement `likesCount - 1` drives the count to `-1`. -/
theorem totalCount_reaches_minus_one :
    CtrlReachable ⟨⟨false, -1⟩, [⟨true, 0⟩]⟩ ∧ ((-1 : Int) < 0) := by
  constructor
  · have s1 : CtrlStep ctrlInit ⟨⟨true, 0⟩, []⟩ := by
      have h := CtrlStep.fetchStatusUpd ctrlInit true
      simpa [ctrlInit] using h
    have s2 : CtrlStep ⟨⟨true, 0⟩, []⟩ ⟨⟨false, -1⟩, [⟨true, 0⟩]⟩ := by
      have h := CtrlStep.toggleStart ⟨⟨true, 0⟩, []⟩
      simpa [toggleOptimistic] using h
    exact Relation.ReflTransGen.tail (Relation.ReflTransGen.single s1) s2
  · decide

/-- `CtrlInv` is preserved by every consistent-snapshot event. -/
theorem ctrlInv_preserved {c c' : CtrlState} (hinv : CtrlInv c)
    (hstep : CtrlStepAtomic c c') : CtrlInv c' := by
  obtain ⟨⟨h0, h1⟩, hfl⟩ := hinv
  cases hstep with
  | toggleStart =>
      refine ⟨⟨?_, ?_⟩, ?_⟩
      · by_cases hA : c.st.isActive = true <;>
          (simp [toggleOptimistic, hA] at *; omega)
      · intro hact
        by_cases hA : c.st.isActive = true <;>
          simp [toggleOptimistic, hA] at hact ⊢ <;> omega
      · intro s hs
        rcases List.mem_cons.mp hs with h | h
        · exact h ▸ ⟨h0, h1⟩
        · exact hfl s h
  | resolveOk l₁ l₂ snap h =>
      refine ⟨⟨h0, h1⟩, fun s hs => hfl s ?_⟩
      rw [h]
      rcases List.mem_append.mp hs with h' | h'
      · exact List.mem_append.mpr (Or.inl h')
      · exact List.mem_append.mpr (Or.inr (List.mem_cons_of_mem snap h'))
  | resolveFail l₁ l₂ snap h =>
      have hsnap : snap ∈ c.inflight := by
        rw [h]; exact List.mem_append.mpr (Or.inr (List.mem_cons_self snap l₂))
      refine ⟨hfl snap hsnap, fun s hs => hfl s ?_⟩
      rw [h]
      rcases List.mem_append.mp hs with h' | h'
      · exact List.mem_append.mpr (Or.inl h')
      · exact List.mem_append.mpr (Or.inr (List.mem_cons_of_mem snap h'))
  | fetchSnapshot b n hbn =>
      refine ⟨⟨by positivity, fun hb => ?_⟩, hfl⟩
      have hn : 1 ≤ n := hbn hb
      show (1 : Int) ≤ (n : Int)
      exact_mod_cast hn

/-- C8 amended: in every configuration reachable under
consistent-snapshot reconciliation — re-fetches delivering membership
and count as one store-consistent pair — `totalCount ≥ 0`. -/
theorem totalCount_nonneg_of_reachable_atomic (c : CtrlState)
    (h : CtrlReachableAtomic c) : 0 ≤ c.st.totalCount := by
  have hinv : CtrlInv c := by
    induction h with
    | refl =>
        refine ⟨⟨le_refl 0, fun hb => ?_⟩, fun s hs => absurd hs (List.not_mem_nil s)⟩
        simp [ctrlInit] at hb
    | tail _ hstep ih => exact ctrlInv_preserved ih hstep
  exact hinv.1.1

/-- C8 amended witness. -/
theorem totalCount_nonneg_of_reachable_atomic_witness :
    (0 : Int) ≤ ctrlInit.st.totalCount :=
  totalCount_nonneg_of_reachable_atomic ctrlInit Relation.ReflTransGen.refl

/-- C9 counterexample: a media-domain toggle whose remote call fails
after the component was unmounted still emits a console error
(`console.error('Error toggling like:', ...)` is not guarded by the
mount status), so "does not log an error" fails for that Controller. -/
theorem unmounted_media_failure_logs_error :
    (mediaToggleLikeContinuation false true 1 (Except.error AdapterError.storeUnavailable)
        ⟨false, 2, true⟩).2 = ["Error toggling like:"] ∧
    (mediaToggleLikeContinuation false true 1 (Except.error AdapterError.storeUnavailable)
        ⟨false, 2, true⟩).2 ≠ [] := by
  refine ⟨rfl, by decide⟩

/-- C9 amended: unmounting cancels the Change Feed subscription, and a
call settling after unmount never throws (the continuations are total)
and never mutates the controller's state — its setters are no-ops;
the profile-domain continuation also never logs, while the
media-domain continuation logs a console error exactly when the call
failed. -/
theorem unmount_cancels_and_late_resolution_is_noop
    (lc : Lifecycle) (snap : ToggleState) (res : Except AdapterError Unit)
    (s : ToggleState) (pl : Bool) (pc : Int) (m : MediaLikeState) :
    (unmount lc).subscribed = false ∧
    (toggleLikeContinuation false snap res s).1 = s ∧
    (toggleLikeContinuation false snap res s).2 = [] ∧
    (mediaToggleLikeContinuation false pl pc res m).1 = m := by
  refine ⟨rfl, ?_, ?_, ?_⟩ <;>
    cases res <;>
      simp [toggleLikeContinuation, mediaToggleLikeContinuation, setStateIfMounted]

/-- C10: with no signed-in user, invoking the media-domain
`toggleLike` or `toggleFollow` is a complete no-op: the state —
`isLiked`/`isFollowing`, the count, and `loading` — is unchanged, no
remote call is issued, and nothing is logged. -/
theorem media_toggles_noop_when_signed_out
    (res res' : Except AdapterError Unit) (s : MediaLikeState) (t : CreatorFollowState) :
    mediaToggleLike none res s = (s, [], []) ∧
    creatorToggleFollow none res' t = (t, [], []) :=
  ⟨rfl, rfl⟩
